import Mathlib

/-!
Shallow embedding of the TravelControl authentication and CRUD layer.

The embedding follows the active (auth-gated) route-registration module,
the storage layer, and the auth helpers. Handlers are modelled after input
validation has succeeded: each handler is a pure function from the database
state and the parsed request data to a response and the new database state.
Machine time is an abstract natural-number timestamp in milliseconds.

The external bcryptjs and jsonwebtoken libraries are not part of the
repository; their behaviour is modelled from the specification where noted.
-/

namespace TravelControl

/-- A JSON value, as produced by the res.json serializer. -/
inductive Json where
  | null
  | str (s : String)
  | num (n : Int)
  | jbool (b : Bool)
  | obj (fields : List (String × Json))
  | arr (elems : List Json)

/-- Fuel-bounded search for a key anywhere in a JSON value (object keys at
any nesting level up to the fuel bound). -/
def Json.hasKeyFuel : Nat → Json → String → Bool
  | 0, _, _ => false
  | _ + 1, .null, _ => false
  | _ + 1, .str _, _ => false
  | _ + 1, .num _, _ => false
  | _ + 1, .jbool _, _ => false
  | n + 1, .obj fs, k => fs.any (fun p => p.1 == k || Json.hasKeyFuel n p.2 k)
  | n + 1, .arr es, k => es.any (fun e => Json.hasKeyFuel n e k)

/-- Whether a JSON value contains a given object key at any depth.
Every response body produced by this API nests objects at most two levels
deep, so fuel 3 is exhaustive for the values in this development. -/
def Json.hasKey (j : Json) (k : String) : Bool :=
  Json.hasKeyFuel 3 j k

/-- A response body: JSON (res.json), raw text (res.send of a string, used
for the CSV export), or empty (res.send with no argument). -/
inductive RBody where
  | json (j : Json)
  | text (s : String)
  | empty

/-- An HTTP response: a status code and a body. -/
structure Resp where
  status : Nat
  body : RBody

/-- A row of the users table (shared/schema.ts). The password column holds
a hash; resetToken and resetTokenExpiry are the single-slot reset-token
state; timestamps are milliseconds. -/
structure User where
  id : String
  name : String
  email : String
  username : String
  password : String
  vehicle : String
  licensePlate : String
  fuelPricePerLiter : Option String
  darkMode : Option Bool
  resetToken : Option String
  resetTokenExpiry : Option Nat
  createdAt : Option Nat
deriving DecidableEq

/-- A row of the routes table. -/
structure Route where
  id : String
  origin : String
  destination : String
  kilometers : Int
  userId : String
  createdAt : Option Nat
deriving DecidableEq

/-- A row of the trips table. Monetary columns are decimal strings, as in
the schema. -/
structure Trip where
  id : String
  date : Nat
  origin : String
  destination : String
  kilometers : Int
  fuelCost : String
  parkingCost : Option String
  tollCost : Option String
  otherCost : Option String
  totalCost : String
  notes : Option String
  userId : String
  routeId : Option String
  createdAt : Option Nat
deriving DecidableEq

/-- The users table. -/
abbrev Db := List User

/-- A parsed insertUserSchema.partial() body: every insertable user column
optional; absent fields leave the row unchanged. -/
structure UserUpdate where
  name : Option String := none
  email : Option String := none
  username : Option String := none
  password : Option String := none
  vehicle : Option String := none
  licensePlate : Option String := none
  fuelPricePerLiter : Option String := none
  darkMode : Option Bool := none
deriving DecidableEq

/-- A parsed insertUserSchema body (all required columns present, the two
defaulted columns optional). -/
structure InsertUserInput where
  name : String
  email : String
  username : String
  password : String
  vehicle : String
  licensePlate : String
  fuelPricePerLiter : Option String := none
  darkMode : Option Bool := none
deriving DecidableEq

/-- A parsed profile-update body: insertUserSchema.partial().omit over the
password, so the password can never appear in it. -/
structure ProfileUpdate where
  name : Option String := none
  email : Option String := none
  username : Option String := none
  vehicle : Option String := none
  licensePlate : Option String := none
  fuelPricePerLiter : Option String := none
  darkMode : Option Bool := none
deriving DecidableEq

/-- drizzle update .set: each present field overwrites the column, absent
fields keep it; id, reset-token columns and createdAt are never touched by
an insertUserSchema update. -/
def applyUserUpdate (u : User) (upd : UserUpdate) : User :=
  { u with
    name := upd.name.getD u.name
    email := upd.email.getD u.email
    username := upd.username.getD u.username
    password := upd.password.getD u.password
    vehicle := upd.vehicle.getD u.vehicle
    licensePlate := upd.licensePlate.getD u.licensePlate
    fuelPricePerLiter := match upd.fuelPricePerLiter with
      | some v => some v
      | none => u.fuelPricePerLiter
    darkMode := match upd.darkMode with
      | some v => some v
      | none => u.darkMode }

/-- View of a profile update as a user update with no password field. -/
def ProfileUpdate.toUserUpdate (p : ProfileUpdate) : UserUpdate :=
  { name := p.name, email := p.email, username := p.username,
    password := none, vehicle := p.vehicle, licensePlate := p.licensePlate,
    fuelPricePerLiter := p.fuelPricePerLiter, darkMode := p.darkMode }

/-- storage.getUser: first row whose id matches. -/
def getUser (db : Db) (id : String) : Option User :=
  db.find? (fun u => u.id == id)

/-- storage.getUserByEmail. -/
def getUserByEmail (db : Db) (email : String) : Option User :=
  db.find? (fun u => u.email == email)

/-- storage.getUserByUsername. -/
def getUserByUsername (db : Db) (username : String) : Option User :=
  db.find? (fun u => u.username == username)

/-- storage.getUserByEmailOrUsername: single lookup matching either
column. -/
def getUserByEmailOrUsername (db : Db) (s : String) : Option User :=
  db.find? (fun u => u.email == s || u.username == s)

/-- storage.createUser: insert a fresh row; the id is generated by the
store and createdAt defaults to now; fuelPricePerLiter and darkMode take
their column defaults when absent. -/
def createUser (db : Db) (i : InsertUserInput) (freshId : String) (now : Nat) :
    User × Db :=
  let u : User :=
    { id := freshId, name := i.name, email := i.email, username := i.username,
      password := i.password, vehicle := i.vehicle,
      licensePlate := i.licensePlate,
      fuelPricePerLiter := some (i.fuelPricePerLiter.getD "6.00"),
      darkMode := some (i.darkMode.getD true),
      resetToken := none, resetTokenExpiry := none, createdAt := some now }
  (u, db ++ [u])

/-- storage.updateUser, database effect: update every row whose id
matches. -/
def updateUserDb (db : Db) (id : String) (upd : UserUpdate) : Db :=
  db.map (fun u => if u.id == id then applyUserUpdate u upd else u)

/-- storage.updateUser, returned row: the updated row, or none when no row
matched (the source would destructure undefined). -/
def updateUserRet (db : Db) (id : String) (upd : UserUpdate) : Option User :=
  (getUser db id).map (fun u => applyUserUpdate u upd)

/-- storage.setResetToken: store the token and expiry on the user row. -/
def setResetToken (db : Db) (id : String) (tok : String) (expiry : Nat) : Db :=
  db.map (fun u =>
    if u.id == id then
      { u with resetToken := some tok, resetTokenExpiry := some expiry }
    else u)

/-- storage.getUserByResetToken: first row whose stored token equals the
supplied token and whose stored expiry is at least the current time (the
SQL gte against new Date); a row with a null token or null expiry never
matches. -/
def getUserByResetToken (db : Db) (tok : String) (now : Nat) : Option User :=
  db.find? (fun u =>
    u.resetToken == some tok &&
      match u.resetTokenExpiry with
      | some e => now ≤ e
      | none => false)

/-- storage.clearResetToken: null out both reset-token columns. -/
def clearResetToken (db : Db) (id : String) : Db :=
  db.map (fun u =>
    if u.id == id then
      { u with resetToken := none, resetTokenExpiry := none }
    else u)

/-! ### Password hashing (auth.ts hashPassword / comparePassword)

Modelled from the spec: the bcryptjs library is external to the
repository. Section 4.1 gives the contract hash and verify must satisfy:
verify(p, hash(p)) is true, distinct plaintexts do not cross-verify, and
verify is total (never throws, returns false on malformed input). The
model realises this with an injective tagging function. -/

/-- Modelled from the spec: the bcrypt format prefix of a produced hash
(cost factor 10, the SALT_ROUNDS constant of auth.ts). -/
def bcryptPrefix : String := "$2b$10$"

/-- Modelled from the spec: hashPassword as an injective one-way tagging
of the plaintext. -/
def hashPassword (p : String) : String := bcryptPrefix ++ p

/-- Modelled from the spec: comparePassword checks the candidate plaintext
against a stored hash; total, returns false on any non-matching or
malformed hash. -/
def comparePassword (p : String) (h : String) : Bool :=
  h == hashPassword p

/-! ### Session tokens (auth.ts generateToken / verifyToken)

Modelled from the spec: the jsonwebtoken library is external to the
repository. Section 4.2: issue produces a signed token embedding the user
id and an absolute expiry 30 days out; verify checks signature integrity
and expiry and returns a distinguished invalid result (never throws) on
malformed token, bad signature, or past expiry. A wire token either parses
into a payload and signature or is malformed. -/

/-- A token as received on the wire: a well-formed payload with a
signature, or an unparseable string. -/
inductive TokenWire where
  | tok (userId : String) (exp : Nat) (sig : String)
  | malformed (raw : String)
deriving DecidableEq

/-- The JWT_SECRET default of auth.ts. -/
def jwtSecret : String := "your-secret-key-change-in-production"

/-- Modelled from the spec: the signature over a payload under a secret,
as a deterministic MAC. -/
def mkSig (secret : String) (userId : String) (exp : Nat) : String :=
  secret ++ ":" ++ userId ++ ":" ++ toString exp

/-- The 30-day token lifetime, in milliseconds. -/
def tokenLifetimeMs : Nat := 30 * 24 * 60 * 60 * 1000

/-- Modelled from the spec: generateToken signs the user id with an
absolute expiry 30 days from issuance. -/
def generateToken (userId : String) (now : Nat) : TokenWire :=
  .tok userId (now + tokenLifetimeMs) (mkSig jwtSecret userId (now + tokenLifetimeMs))

/-- Modelled from the spec: verifyToken accepts exactly a well-formed
token whose signature matches its payload under the secret and whose
expiry is still ahead of the clock; every other input yields none. -/
def verifyToken (t : TokenWire) (now : Nat) : Option String :=
  match t with
  | .malformed _ => none
  | .tok userId exp sig =>
      if sig == mkSig jwtSecret userId exp && decide (now < exp) then
        some userId
      else none

/-- Rendering of a token for transport inside a JSON response body. -/
def renderToken (t : TokenWire) : String :=
  match t with
  | .tok userId exp sig => userId ++ "." ++ toString exp ++ "." ++ sig
  | .malformed raw => raw

/-- The JavaScript single-character string split: every occurrence of the
separator starts a new (possibly empty) piece. -/
def splitCharAux (c : Char) : List Char → List Char → List String
  | [], acc => [String.mk acc.reverse]
  | x :: xs, acc =>
      if x = c then String.mk acc.reverse :: splitCharAux c xs []
      else splitCharAux c xs (x :: acc)

/-- String split on a single-character separator, matching the JavaScript
String.prototype.split semantics for such separators. -/
def splitChar (c : Char) (s : String) : List String :=
  splitCharAux c s.data []

/-- Parse a nonempty all-digit string into a number. -/
def digitsToNat : List Char → Nat → Option Nat
  | [], acc => some acc
  | d :: ds, acc =>
      if d.isDigit then digitsToNat ds (acc * 10 + (d.toNat - 48))
      else none

/-- Parse a decimal numeral; none on the empty string or any non-digit. -/
def parseNat (s : String) : Option Nat :=
  match s.data with
  | [] => none
  | ds => digitsToNat ds 0

/-- Modelled from the spec: parsing of a wire string back into a token;
anything that does not parse is malformed. -/
def decodeWire (s : String) : TokenWire :=
  match splitChar '.' s with
  | [userId, expStr, sig] =>
      match parseNat expStr with
      | some exp => .tok userId exp sig
      | none => .malformed s
  | _ => .malformed s

/-! ### Authentication middleware (auth.ts authenticateToken) -/

/-- The outcome of the middleware: an early rejection response, or control
passed to the downstream handler with the resolved user id attached. -/
inductive MwResult where
  | reject (status : Nat) (message : String)
  | proceed (userId : String)
deriving DecidableEq

/-- The token extraction of authenticateToken: authHeader and
authHeader.split of a space at index 1; an absent header, a missing index
1, and an empty string are all falsy and yield no token. -/
def extractToken (authHeader : Option String) : Option String :=
  match authHeader with
  | none => none
  | some h =>
      match (splitChar ' ' h).get? 1 with
      | none => none
      | some t => if t == "" then none else some t

/-- auth.ts authenticateToken: 401 when no token was supplied, 403 when the
supplied token does not verify, otherwise proceed with the resolved user
id. -/
def authenticateToken (authHeader : Option String) (now : Nat) : MwResult :=
  match extractToken authHeader with
  | none => .reject 401 "Token de acesso requerido"
  | some t =>
      match verifyToken (decodeWire t) now with
      | none => .reject 403 "Token inválido"
      | some userId => .proceed userId

/-- The middleware threaded through the stored state it could have touched:
it calls no storage operation, so the state passes through unchanged. -/
def authenticateTokenSt (db : Db) (authHeader : Option String) (now : Nat) :
    MwResult × Db :=
  (authenticateToken authHeader now, db)

/-! ### JSON serialization of rows -/

/-- JSON of an optional text column. -/
def jsonOptStr : Option String → Json
  | none => .null
  | some s => .str s

/-- JSON of an optional boolean column. -/
def jsonOptBool : Option Bool → Json
  | none => .null
  | some b => .jbool b

/-- JSON of an optional timestamp column. -/
def jsonOptNat : Option Nat → Json
  | none => .null
  | some n => .num (Int.ofNat n)

/-- res.json of a full user row: every column, the password hash and the
reset-token columns included. -/
def userJson (u : User) : Json :=
  .obj [("id", .str u.id), ("name", .str u.name), ("email", .str u.email),
    ("username", .str u.username), ("password", .str u.password),
    ("vehicle", .str u.vehicle), ("licensePlate", .str u.licensePlate),
    ("fuelPricePerLiter", jsonOptStr u.fuelPricePerLiter),
    ("darkMode", jsonOptBool u.darkMode),
    ("resetToken", jsonOptStr u.resetToken),
    ("resetTokenExpiry", jsonOptNat u.resetTokenExpiry),
    ("createdAt", jsonOptNat u.createdAt)]

/-- The userResponse object after destructuring away password, resetToken
and resetTokenExpiry: the remaining columns in row order. -/
def publicUserJson (u : User) : Json :=
  .obj [("id", .str u.id), ("name", .str u.name), ("email", .str u.email),
    ("username", .str u.username), ("vehicle", .str u.vehicle),
    ("licensePlate", .str u.licensePlate),
    ("fuelPricePerLiter", jsonOptStr u.fuelPricePerLiter),
    ("darkMode", jsonOptBool u.darkMode),
    ("createdAt", jsonOptNat u.createdAt)]

/-- res.json of a route row. -/
def routeJson (r : Route) : Json :=
  .obj [("id", .str r.id), ("origin", .str r.origin),
    ("destination", .str r.destination),
    ("kilometers", .num r.kilometers), ("userId", .str r.userId),
    ("createdAt", jsonOptNat r.createdAt)]

/-- res.json of a trip row. -/
def tripJson (t : Trip) : Json :=
  .obj [("id", .str t.id), ("date", .num (Int.ofNat t.date)),
    ("origin", .str t.origin), ("destination", .str t.destination),
    ("kilometers", .num t.kilometers), ("fuelCost", .str t.fuelCost),
    ("parkingCost", jsonOptStr t.parkingCost),
    ("tollCost", jsonOptStr t.tollCost),
    ("otherCost", jsonOptStr t.otherCost), ("totalCost", .str t.totalCost),
    ("notes", jsonOptStr t.notes), ("userId", .str t.userId),
    ("routeId", jsonOptStr t.routeId), ("createdAt", jsonOptNat t.createdAt)]

/-- Response helper: a status with a message-only JSON body. -/
def msgResp (status : Nat) (m : String) : Resp :=
  ⟨status, .json (.obj [("message", .str m)])⟩

/-! ### Authentication route handlers (active route-registration module)

Each handler models the code path after schema validation has succeeded;
handlers behind authenticateToken take the resolved user id as an
argument. -/

/-- POST /api/auth/register after validation: reject on an email or
username already in use, otherwise hash the password, create the user,
issue a token, and answer 201 with the stripped user and the token. -/
def registerHandler (db : Db) (i : InsertUserInput) (freshId : String)
    (now : Nat) : Resp × Db :=
  match getUserByEmail db i.email with
  | some _ => (msgResp 400 "Email já está em uso", db)
  | none =>
    match getUserByUsername db i.username with
    | some _ => (msgResp 400 "Nome de usuário já está em uso", db)
    | none =>
      let hp := hashPassword i.password
      let (u, db1) := createUser db { i with password := hp } freshId now
      let t := generateToken u.id now
      (⟨201, .json (.obj [("user", publicUserJson u),
        ("token", .str (renderToken t))])⟩, db1)

/-- POST /api/auth/login after validation: one lookup by email or
username; a miss and a password mismatch both answer 401 with the same
generic message; otherwise 200 with the stripped user and a fresh
token. -/
def loginHandler (db : Db) (emailOrUsername : String) (password : String)
    (now : Nat) : Resp :=
  match getUserByEmailOrUsername db emailOrUsername with
  | none => msgResp 401 "Credenciais inválidas"
  | some u =>
      if comparePassword password u.password then
        ⟨200, .json (.obj [("user", publicUserJson u),
          ("token", .str (renderToken (generateToken u.id now)))])⟩
      else msgResp 401 "Credenciais inválidas"

/-- GET /api/auth/me behind the middleware: the stored user, stripped. -/
def authMeHandler (db : Db) (userId : String) : Resp :=
  match getUser db userId with
  | none => msgResp 404 "Usuário não encontrado"
  | some u => ⟨200, .json (publicUserJson u)⟩

/-- PUT /api/auth/profile behind the middleware: uniqueness re-checks
against rows other than the caller, then the update; answers with the
stripped updated row (a missing row would make the source destructure
undefined and answer 500). -/
def updateProfileHandler (db : Db) (userId : String) (p : ProfileUpdate) :
    Resp × Db :=
  let emailConflict :=
    match p.email with
    | none => false
    | some e =>
        match getUserByEmail db e with
        | none => false
        | some other => other.id != userId
  let usernameConflict :=
    match p.username with
    | none => false
    | some un =>
        match getUserByUsername db un with
        | none => false
        | some other => other.id != userId
  if emailConflict then (msgResp 400 "Email já está em uso", db)
  else if usernameConflict then
    (msgResp 400 "Nome de usuário já está em uso", db)
  else
    match updateUserRet db userId p.toUserUpdate with
    | none => (msgResp 500 "Erro interno do servidor", db)
    | some u =>
        (⟨200, .json (publicUserJson u)⟩,
          updateUserDb db userId p.toUserUpdate)

/-- POST /api/auth/change-password behind the middleware: verify the
current password against the stored hash before storing the hash of the
new one; a mismatch answers 400 and leaves the store untouched. -/
def changePasswordHandler (db : Db) (userId : String)
    (currentPassword : String) (newPassword : String) : Resp × Db :=
  match getUser db userId with
  | none => (msgResp 404 "Usuário não encontrado", db)
  | some u =>
      if comparePassword currentPassword u.password then
        (msgResp 200 "Senha alterada com sucesso",
          updateUserDb db userId { password := some (hashPassword newPassword) })
      else (msgResp 400 "Senha atual incorreta", db)

/-- The generic forgot-password reply, sent in the known-email and
unknown-email cases alike. -/
def forgotPasswordReply : Resp :=
  msgResp 200 "Se o email existir, você receberá instruções de recuperação"

/-- POST /api/auth/forgot-password after validation: an unknown email is a
no-op; a known email stores a fresh reset token expiring one hour out; the
reply is the same either way. The generated random token is passed in. -/
def forgotPasswordHandler (db : Db) (email : String) (tok : String)
    (now : Nat) : Resp × Db :=
  match getUserByEmail db email with
  | none => (forgotPasswordReply, db)
  | some u => (forgotPasswordReply, setResetToken db u.id tok (now + 3600000))

/-- POST /api/auth/reset-password after validation: look the token up
against stored token and unexpired stored expiry; on a miss answer 400 and
change nothing; on a hit store the hash of the new password, clear both
reset-token columns, and answer 200. -/
def resetPasswordHandler (db : Db) (tok : String) (password : String)
    (now : Nat) : Resp × Db :=
  match getUserByResetToken db tok now with
  | none => (msgResp 400 "Token inválido ou expirado", db)
  | some u =>
      let db1 := updateUserDb db u.id { password := some (hashPassword password) }
      let db2 := clearResetToken db1 u.id
      (msgResp 200 "Senha redefinida com sucesso", db2)

/-- GET /api/users/:id behind the middleware: 403 on another id, else the
stored user, stripped. -/
def getUserByIdHandler (db : Db) (paramId : String) (authedId : String) : Resp :=
  if paramId != authedId then msgResp 403 "Acesso negado"
  else
    match getUser db paramId with
    | none => msgResp 404 "Usuário não encontrado"
    | some u => ⟨200, .json (publicUserJson u)⟩

/-- POST /api/users (legacy, unguarded): create the user from the raw body
without hashing and answer 201 with the full row, password included. -/
def postUsersHandler (db : Db) (i : InsertUserInput) (freshId : String)
    (now : Nat) : Resp × Db :=
  let (u, db1) := createUser db i freshId now
  (⟨201, .json (userJson u)⟩, db1)

/-- PUT /api/users/:id (legacy, unguarded): apply the raw update and
answer with the full returned row, password included (an unmatched id
makes res.json of undefined send an empty body). -/
def putUsersHandler (db : Db) (paramId : String) (upd : UserUpdate) :
    Resp × Db :=
  match updateUserRet db paramId upd with
  | none => (⟨200, .empty⟩, updateUserDb db paramId upd)
  | some u => (⟨200, .json (userJson u)⟩, updateUserDb db paramId upd)

/-! ### Route and trip endpoints cited by the claims

PUT/DELETE /api/routes/:id, PUT/DELETE /api/trips/:id and
GET /api/trips/:userId/export are registered in the active module without
the authenticateToken middleware and without an ownership check. Each
handler below carries the authorization header of the request to show the
handler never consults it. -/

/-- A parsed insertRouteSchema.partial() body. -/
structure RouteUpdate where
  origin : Option String := none
  destination : Option String := none
  kilometers : Option Int := none
  userId : Option String := none
deriving DecidableEq

/-- drizzle update .set on a route row. -/
def applyRouteUpdate (r : Route) (upd : RouteUpdate) : Route :=
  { r with
    origin := upd.origin.getD r.origin
    destination := upd.destination.getD r.destination
    kilometers := upd.kilometers.getD r.kilometers
    userId := upd.userId.getD r.userId }

/-- storage.updateRoute, database effect: every row whose id matches. -/
def updateRouteDb (dbR : List Route) (id : String) (upd : RouteUpdate) :
    List Route :=
  dbR.map (fun r => if r.id == id then applyRouteUpdate r upd else r)

/-- storage.updateRoute, returned row. -/
def updateRouteRet (dbR : List Route) (id : String) (upd : RouteUpdate) :
    Option Route :=
  (dbR.find? (fun r => r.id == id)).map (fun r => applyRouteUpdate r upd)

/-- storage.deleteRoute: remove every row whose id matches. -/
def deleteRouteDb (dbR : List Route) (id : String) : List Route :=
  dbR.filter (fun r => !(r.id == id))

/-- A parsed insertTripSchema.partial() body. -/
structure TripUpdate where
  date : Option Nat := none
  origin : Option String := none
  destination : Option String := none
  kilometers : Option Int := none
  fuelCost : Option String := none
  parkingCost : Option String := none
  tollCost : Option String := none
  otherCost : Option String := none
  totalCost : Option String := none
  notes : Option String := none
  userId : Option String := none
  routeId : Option String := none
deriving DecidableEq

/-- drizzle update .set on a trip row. -/
def applyTripUpdate (t : Trip) (upd : TripUpdate) : Trip :=
  { t with
    date := upd.date.getD t.date
    origin := upd.origin.getD t.origin
    destination := upd.destination.getD t.destination
    kilometers := upd.kilometers.getD t.kilometers
    fuelCost := upd.fuelCost.getD t.fuelCost
    parkingCost := match upd.parkingCost with
      | some v => some v
      | none => t.parkingCost
    tollCost := match upd.tollCost with
      | some v => some v
      | none => t.tollCost
    otherCost := match upd.otherCost with
      | some v => some v
      | none => t.otherCost
    totalCost := upd.totalCost.getD t.totalCost
    notes := match upd.notes with
      | some v => some v
      | none => t.notes
    userId := upd.userId.getD t.userId
    routeId := match upd.routeId with
      | some v => some v
      | none => t.routeId }

/-- storage.updateTrip, database effect: every row whose id matches. -/
def updateTripDb (dbT : List Trip) (id : String) (upd : TripUpdate) :
    List Trip :=
  dbT.map (fun t => if t.id == id then applyTripUpdate t upd else t)

/-- storage.updateTrip, returned row. -/
def updateTripRet (dbT : List Trip) (id : String) (upd : TripUpdate) :
    Option Trip :=
  (dbT.find? (fun t => t.id == id)).map (fun t => applyTripUpdate t upd)

/-- storage.deleteTrip: remove every row whose id matches. -/
def deleteTripDb (dbT : List Trip) (id : String) : List Trip :=
  dbT.filter (fun t => !(t.id == id))

/-- The optional getTrips filters, with the dates already parsed to
timestamps. -/
structure TripFilters where
  startDate : Option Nat := none
  endDate : Option Nat := none
  origin : Option String := none
  destination : Option String := none

/-- The getTrips row predicate: owner plus each supplied filter. -/
def tripMatches (userId : String) (f : TripFilters) (t : Trip) : Bool :=
  t.userId == userId &&
    (match f.startDate with | some d => d ≤ t.date | none => true) &&
    (match f.endDate with | some d => t.date ≤ d | none => true) &&
    (match f.origin with | some o => t.origin == o | none => true) &&
    (match f.destination with | some d => t.destination == d | none => true)

/-- Descending insertion by a numeric key (orderBy desc). -/
def insertDescBy (key : Trip → Nat) (x : Trip) : List Trip → List Trip
  | [] => [x]
  | y :: ys => if key y < key x then x :: y :: ys else y :: insertDescBy key x ys

/-- Descending sort by a numeric key (orderBy desc). -/
def sortDescBy (key : Trip → Nat) (l : List Trip) : List Trip :=
  l.foldr (insertDescBy key) []

/-- storage.getTrips: the rows of the given owner passing the filters,
ordered by date descending. -/
def getTrips (dbT : List Trip) (userId : String) (f : TripFilters) :
    List Trip :=
  sortDescBy (fun t => t.date) (dbT.filter (tripMatches userId f))

/-- Modelled shallowly: the pt-BR locale rendering of a date is library
behaviour; the model renders the numeric timestamp. -/
def formatDateBR (d : Nat) : String := toString d

/-- The CSV header line of the export endpoint. -/
def csvHeader : String :=
  "Data,Origem,Destino,KM,Combustível,Estacionamento,Pedágio,Outras,Total,Observações\n"

/-- One CSV row of the export endpoint. -/
def tripCsvRow (t : Trip) : String :=
  formatDateBR t.date ++ "," ++ t.origin ++ "," ++ t.destination ++ "," ++
    toString t.kilometers ++ "," ++ t.fuelCost ++ "," ++
    (t.parkingCost.getD "") ++ "," ++ (t.tollCost.getD "") ++ "," ++
    (t.otherCost.getD "") ++ "," ++ t.totalCost ++ ",\"" ++
    (t.notes.getD "") ++ "\""

/-- The CSV payload: header plus newline-joined rows. -/
def buildCsv (l : List Trip) : String :=
  csvHeader ++ String.intercalate "\n" (l.map tripCsvRow)

/-- PUT /api/routes/:id: registered without the middleware; applies the
update to whatever row carries the id and answers 200 with the returned
row. The authorization header is never consulted. -/
def putRouteHandler (_authHeader : Option String) (dbR : List Route)
    (paramId : String) (upd : RouteUpdate) : Resp × List Route :=
  (match updateRouteRet dbR paramId upd with
    | none => ⟨200, .empty⟩
    | some r => ⟨200, .json (routeJson r)⟩,
   updateRouteDb dbR paramId upd)

/-- DELETE /api/routes/:id: registered without the middleware; deletes
whatever row carries the id and answers 204. -/
def deleteRouteHandler (_authHeader : Option String) (dbR : List Route)
    (paramId : String) : Resp × List Route :=
  (⟨204, .empty⟩, deleteRouteDb dbR paramId)

/-- PUT /api/trips/:id: registered without the middleware; applies the
update to whatever row carries the id and answers 200 with the returned
row. -/
def putTripHandler (_authHeader : Option String) (dbT : List Trip)
    (paramId : String) (upd : TripUpdate) : Resp × List Trip :=
  (match updateTripRet dbT paramId upd with
    | none => ⟨200, .empty⟩
    | some t => ⟨200, .json (tripJson t)⟩,
   updateTripDb dbT paramId upd)

/-- DELETE /api/trips/:id: registered without the middleware; deletes
whatever row carries the id and answers 204. -/
def deleteTripHandler (_authHeader : Option String) (dbT : List Trip)
    (paramId : String) : Resp × List Trip :=
  (⟨204, .empty⟩, deleteTripDb dbT paramId)

/-- GET /api/trips/:userId/export: registered without the middleware;
exports the trips of whichever user id appears in the path as CSV text
with a 200 status. -/
def exportTripsHandler (_authHeader : Option String) (dbT : List Trip)
    (paramUserId : String) (f : TripFilters) : Resp :=
  ⟨200, .text (buildCsv (getTrips dbT paramUserId f))⟩

/-! ### Sample data used by the witnesses -/

/-- A sample stored user; the password column holds the hash of the sample
plaintext. -/
def alice : User :=
  { id := "u1", name := "Alice", email := "alice@example.com",
    username := "alice", password := hashPassword "correct-horse",
    vehicle := "Carro", licensePlate := "ABC1234",
    fuelPricePerLiter := some "6.00", darkMode := some true,
    resetToken := none, resetTokenExpiry := none, createdAt := some 0 }

/-- The sample user with an issued reset token expiring at time 7200000. -/
def aliceWithToken : User :=
  { alice with resetToken := some "tok123", resetTokenExpiry := some 7200000 }

/-- A sample raw user-creation body. -/
def sampleInsert : InsertUserInput :=
  { name := "Eve", email := "eve@example.com", username := "eve",
    password := "plaintext-pw", vehicle := "Carro", licensePlate := "XYZ9A99" }

/-- A sample stored route owned by another user. -/
def route0 : Route :=
  { id := "r1", origin := "A", destination := "B", kilometers := 10,
    userId := "owner-1", createdAt := some 0 }

/-- A sample stored trip owned by another user. -/
def trip0 : Trip :=
  { id := "t1", date := 3, origin := "A", destination := "B",
    kilometers := 5, fuelCost := "1.00", parkingCost := none,
    tollCost := none, otherCost := none, totalCost := "1.00", notes := none,
    userId := "owner-1", routeId := none, createdAt := some 0 }

/-! ### Helper lemmas -/

/-- String concatenation is left-cancellative. -/
theorem string_append_cancel_left {a b c : String} (h : a ++ b = a ++ c) :
    b = c := by
  have hd : (a ++ b).data = (a ++ c).data := congrArg String.data h
  rw [String.data_append, String.data_append] at hd
  exact String.ext (List.append_cancel_left hd)

/-- The modelled bcrypt hash is injective. -/
theorem hashPassword_injective {p₁ p₂ : String}
    (h : hashPassword p₁ = hashPassword p₂) : p₁ = p₂ :=
  string_append_cancel_left h

/-- C9 as stated. -/
theorem password_hash_verify_contract :
    (∀ p, comparePassword p (hashPassword p) = true) ∧
    (∀ p₁ p₂, p₁ ≠ p₂ → comparePassword p₁ (hashPassword p₂) = false) ∧
    (∀ p h, h ≠ hashPassword p → comparePassword p h = false) := by
  refine ⟨fun p => ?_, fun p₁ p₂ hne => ?_, fun p h hne => ?_⟩
  · simp [comparePassword]
  · simp only [comparePassword, beq_eq_false_iff_ne, ne_eq]
    intro h
    exact hne (hashPassword_injective h).symm
  · simp only [comparePassword, beq_eq_false_iff_ne, ne_eq]
    exact hne

/-- Witness for C9 at concrete inputs. -/
theorem password_hash_verify_contract_witness :
    comparePassword "pw-a" (hashPassword "pw-a") = true ∧
    comparePassword "pw-a" (hashPassword "pw-b") = false ∧
    comparePassword "pw-a" "not-a-bcrypt-hash" = false :=
  ⟨password_hash_verify_contract.1 "pw-a",
   password_hash_verify_contract.2.1 "pw-a" "pw-b" (by decide),
   password_hash_verify_contract.2.2 "pw-a" "not-a-bcrypt-hash" (by decide)⟩

/-- C6 as stated: issuance and verification over the modelled token
service. Verification is total by its Option return type; the final
conjunct records that it always yields either the invalid result or a
user id. -/
theorem session_token_issue_verify :
    ∀ (u : String) (now t : Nat),
      (now ≤ t → t < now + tokenLifetimeMs →
        verifyToken (generateToken u now) t = some u) ∧
      (now + tokenLifetimeMs ≤ t →
        verifyToken (generateToken u now) t = none) ∧
      (∀ s, verifyToken (.malformed s) t = none) ∧
      (∀ uid e sig, sig ≠ mkSig jwtSecret uid e →
        verifyToken (.tok uid e sig) t = none) ∧
      (∀ w : TokenWire, verifyToken w t = none ∨
        ∃ uid, verifyToken w t = some uid) := by
  intro u now t
  refine ⟨fun _ hlt => ?_, fun hge => ?_, fun s => rfl, fun uid e sig hne => ?_,
    fun w => ?_⟩
  · simp [generateToken, verifyToken, hlt]
  · simp [generateToken, verifyToken, Nat.not_lt.mpr hge]
  · simp [verifyToken, hne]
  · cases hw : verifyToken w t with
    | none => exact Or.inl rfl
    | some uid => exact Or.inr ⟨uid, rfl⟩

/-- Witness for C6 at concrete inputs: a token issued at time 0 verifies
at time 5, fails at its expiry, and a tampered signature fails. -/
theorem session_token_issue_verify_witness :
    verifyToken (generateToken "u1" 0) 5 = some "u1" ∧
    verifyToken (generateToken "u1" 0) 2592000000 = none ∧
    verifyToken (.tok "u1" 10 "forged") 5 = none :=
  ⟨(session_token_issue_verify "u1" 0 5).1 (by decide) (by decide),
   (session_token_issue_verify "u1" 0 2592000000).2.1 (by decide),
   (session_token_issue_verify "u1" 0 5).2.2.2.1 "u1" 10 "forged" (by decide)⟩

/-- C5 as stated: the middleware answers 401 with no token, 403 with an
invalid one, proceeds with the resolved user id on a valid one, and leaves
the stored state untouched. -/
theorem auth_middleware_guard :
    ∀ (h : Option String) (now : Nat) (db : Db),
      (extractToken h = none →
        authenticateToken h now = .reject 401 "Token de acesso requerido") ∧
      (∀ t, extractToken h = some t → verifyToken (decodeWire t) now = none →
        authenticateToken h now = .reject 403 "Token inválido") ∧
      (∀ t uid, extractToken h = some t →
        verifyToken (decodeWire t) now = some uid →
        authenticateToken h now = .proceed uid) ∧
      (authenticateTokenSt db h now).2 = db := by
  intro h now db
  refine ⟨fun hnone => ?_, fun t ht hv => ?_, fun t uid ht hv => ?_, rfl⟩
  · simp [authenticateToken, hnone]
  · simp [authenticateToken, ht, hv]
  · simp [authenticateToken, ht, hv]

/-- Witness for C5 at concrete inputs: absent header, unverifiable token,
and a well-signed unexpired token. -/
theorem auth_middleware_guard_witness :
    authenticateToken none 0 = .reject 401 "Token de acesso requerido" ∧
    authenticateToken (some "Bearer garbage") 0 = .reject 403 "Token inválido" ∧
    authenticateToken
      (some "Bearer u1.10.your-secret-key-change-in-production:u1:10") 5 =
      .proceed "u1" :=
  ⟨(auth_middleware_guard none 0 []).1 rfl,
   (auth_middleware_guard (some "Bearer garbage") 0 []).2.1 "garbage"
     (by decide) (by decide),
   (auth_middleware_guard
       (some "Bearer u1.10.your-secret-key-change-in-production:u1:10") 5 []).2.2.1
     "u1.10.your-secret-key-change-in-production:u1:10" "u1"
     (by decide) (by decide)⟩

/-- C1 as stated: the forgot-password reply is one constant response, so
the known-email and unknown-email cases are observably identical; an
unknown email changes nothing; a known email persists the token with an
expiry one hour out on the rows carrying the found user id and leaves
every other row as it was. -/
theorem forgot_password_no_enumeration :
    ∀ (db : Db) (email tok : String) (now : Nat),
      (forgotPasswordHandler db email tok now).1 = forgotPasswordReply ∧
      (getUserByEmail db email = none →
        (forgotPasswordHandler db email tok now).2 = db) ∧
      (∀ u, getUserByEmail db email = some u →
        (forgotPasswordHandler db email tok now).2 =
          setResetToken db u.id tok (now + 3600000) ∧
        ∀ v ∈ (forgotPasswordHandler db email tok now).2,
          (v.id = u.id →
            v.resetToken = some tok ∧ v.resetTokenExpiry = some (now + 3600000)) ∧
          (v.id ≠ u.id → v ∈ db)) := by
  intro db email tok now
  refine ⟨?_, fun hnone => ?_, fun u hu => ⟨?_, fun v hv => ?_⟩⟩
  · cases hfind : getUserByEmail db email <;>
      simp [forgotPasswordHandler, hfind]
  · simp [forgotPasswordHandler, hnone]
  · simp [forgotPasswordHandler, hu]
  · simp only [forgotPasswordHandler, hu, setResetToken] at hv
    obtain ⟨w, hw, rfl⟩ := List.mem_map.1 hv
    by_cases hwid : w.id = u.id
    · simp [hwid]
    · simp [hwid, hw]

/-- Witness for C1: with the sample user present, the reply is the
constant one and the token is persisted with a one-hour expiry. -/
theorem forgot_password_no_enumeration_witness :
    (forgotPasswordHandler [alice] "alice@example.com" "tok123" 5).1 =
      forgotPasswordReply ∧
    (forgotPasswordHandler [alice] "alice@example.com" "tok123" 5).2 =
      setResetToken [alice] alice.id "tok123" (5 + 3600000) ∧
    (forgotPasswordHandler [alice] "nobody@example.com" "tok123" 5).2 =
      [alice] :=
  ⟨(forgot_password_no_enumeration [alice] "alice@example.com" "tok123" 5).1,
   ((forgot_password_no_enumeration [alice] "alice@example.com" "tok123" 5).2.2
     alice (by decide)).1,
   (forgot_password_no_enumeration [alice] "nobody@example.com" "tok123" 5).2.1
     (by decide)⟩

/-- C2 as stated: on a failed token lookup the reset answers 400 with the
invalid-or-expired message and the store is unchanged, so every password
hash and stored token and expiry is as before; a successful lookup
requires the stored token to equal the supplied one with a stored expiry
at least the current time, so a wrong token or a past expiry can only
fail. -/
theorem reset_password_invalid_token_rejected :
    ∀ (db : Db) (tok pw : String) (now : Nat),
      (getUserByResetToken db tok now = none →
        (resetPasswordHandler db tok pw now).1 =
          msgResp 400 "Token inválido ou expirado" ∧
        (resetPasswordHandler db tok pw now).2 = db) ∧
      (∀ u, getUserByResetToken db tok now = some u →
        u.resetToken = some tok ∧
        ∃ e, u.resetTokenExpiry = some e ∧ now ≤ e) ∧
      (∀ u, u.resetToken ≠ some tok ∨
          (∀ e, u.resetTokenExpiry = some e → e < now) →
        getUserByResetToken db tok now ≠ some u) := by
  intro db tok pw now
  refine ⟨fun hnone => ?_, fun u hu => ?_, fun u hbad habs => ?_⟩
  · exact ⟨by simp [resetPasswordHandler, hnone],
      by simp [resetPasswordHandler, hnone]⟩
  · have hp := List.find?_some hu
    simp only [Bool.and_eq_true, beq_iff_eq] at hp
    obtain ⟨htok, hexp⟩ := hp
    refine ⟨htok, ?_⟩
    cases he : u.resetTokenExpiry with
    | none => rw [he] at hexp; simp at hexp
    | some e =>
        rw [he] at hexp
        simp only [decide_eq_true_eq] at hexp
        exact ⟨e, rfl, hexp⟩
  · have hp := List.find?_some habs
    simp only [Bool.and_eq_true, beq_iff_eq] at hp
    obtain ⟨htok, hexp⟩ := hp
    cases hbad with
    | inl h => exact h htok
    | inr h =>
        cases he : u.resetTokenExpiry with
        | none => rw [he] at hexp; simp at hexp
        | some e =>
            rw [he] at hexp
            simp only [decide_eq_true_eq] at hexp
            exact absurd hexp (Nat.not_le.mpr (h e he))

/-- Witness for C2: a wrong token and an expired token both leave the
sample store untouched and answer 400. -/
theorem reset_password_invalid_token_rejected_witness :
    (resetPasswordHandler [aliceWithToken] "wrong-token" "newpw" 5).1 =
      msgResp 400 "Token inválido ou expirado" ∧
    (resetPasswordHandler [aliceWithToken] "wrong-token" "newpw" 5).2 =
      [aliceWithToken] ∧
    (resetPasswordHandler [aliceWithToken] "tok123" "newpw" 7200001).2 =
      [aliceWithToken] :=
  ⟨((reset_password_invalid_token_rejected [aliceWithToken] "wrong-token"
      "newpw" 5).1 (by decide)).1,
   ((reset_password_invalid_token_rejected [aliceWithToken] "wrong-token"
      "newpw" 5).1 (by decide)).2,
   ((reset_password_invalid_token_rejected [aliceWithToken] "tok123"
      "newpw" 7200001).1 (by decide)).2⟩

/-- C3 as stated: a redemption whose token matches a stored token with an
unexpired expiry succeeds, replaces the password hash of that user, clears
both reset-token columns, leaves other rows as they were, and a second
redemption with the same token fails at any later time. The hypothesis
that no other row carries the same token reflects the 256-bit entropy the
specification requires of generated tokens. -/
theorem reset_password_success_consumes_token :
    ∀ (db : Db) (tok pw : String) (now : Nat) (u : User),
      getUserByResetToken db tok now = some u →
      (∀ v ∈ db, v.resetToken = some tok → v.id = u.id) →
      (resetPasswordHandler db tok pw now).1 =
        msgResp 200 "Senha redefinida com sucesso" ∧
      (∀ v ∈ (resetPasswordHandler db tok pw now).2,
        (v.id = u.id → v.password = hashPassword pw ∧
          v.resetToken = none ∧ v.resetTokenExpiry = none) ∧
        (v.id ≠ u.id → v ∈ db)) ∧
      (∀ (pw₂ : String) (now₂ : Nat),
        (resetPasswordHandler (resetPasswordHandler db tok pw now).2 tok pw₂
            now₂).1 = msgResp 400 "Token inválido ou expirado" ∧
        (resetPasswordHandler (resetPasswordHandler db tok pw now).2 tok pw₂
            now₂).2 = (resetPasswordHandler db tok pw now).2) := by
  intro db tok pw now u hu huniq
  have hdb2 : (resetPasswordHandler db tok pw now).2 =
      clearResetToken (updateUserDb db u.id
        { password := some (hashPassword pw) }) u.id := by
    simp [resetPasswordHandler, hu]
  have hmem : ∀ v ∈ (resetPasswordHandler db tok pw now).2,
      (v.id = u.id → v.password = hashPassword pw ∧
        v.resetToken = none ∧ v.resetTokenExpiry = none) ∧
      (v.id ≠ u.id → v ∈ db) := by
    intro v hv
    rw [hdb2] at hv
    simp only [clearResetToken, updateUserDb, List.map_map] at hv
    obtain ⟨w, hw, rfl⟩ := List.mem_map.1 hv
    by_cases hwid : w.id = u.id
    · simp [hwid, applyUserUpdate]
    · simp [hwid, hw]
  have hlook : ∀ now₂ : Nat,
      getUserByResetToken (resetPasswordHandler db tok pw now).2 tok now₂ =
        none := by
    intro now₂
    rw [getUserByResetToken, List.find?_eq_none]
    intro v hv
    rcases hmem v hv with ⟨hsame, hother⟩
    by_cases hvid : v.id = u.id
    · rcases hsame hvid with ⟨_, htok, _⟩
      simp [htok]
    · have hvdb := hother hvid
      cases hvt : v.resetToken with
      | none => simp
      | some s =>
          by_cases hst : s = tok
          · subst hst
            exact absurd (huniq v hvdb hvt) hvid
          · simp [hvt, hst]
  refine ⟨by simp [resetPasswordHandler, hu], hmem, fun pw₂ now₂ => ?_⟩
  have h2 := hlook now₂
  set db2 := (resetPasswordHandler db tok pw now).2 with hdb2eq
  exact ⟨by simp [resetPasswordHandler, h2], by simp [resetPasswordHandler, h2]⟩

/-- Witness for C3: redeeming the sample token succeeds and a second
redemption with the same token is rejected. -/
theorem reset_password_success_consumes_token_witness :
    (resetPasswordHandler [aliceWithToken] "tok123" "new-pw" 5).1 =
      msgResp 200 "Senha redefinida com sucesso" ∧
    (resetPasswordHandler
        (resetPasswordHandler [aliceWithToken] "tok123" "new-pw" 5).2
        "tok123" "other-pw" 6).1 =
      msgResp 400 "Token inválido ou expirado" :=
  ⟨(reset_password_success_consumes_token [aliceWithToken] "tok123" "new-pw" 5
      aliceWithToken (by decide) (by decide)).1,
   ((reset_password_success_consumes_token [aliceWithToken] "tok123" "new-pw" 5
      aliceWithToken (by decide) (by decide)).2.2 "other-pw" 6).1⟩

/-- C7 as stated: a miss of the single email-or-username lookup and a
password mismatch produce the same constant 401 response, and a correct
identifier with the correct password answers 200 with the stripped user
and a freshly issued token. -/
theorem login_uniform_failure :
    ∀ (db : Db) (eu pw : String) (now : Nat),
      (getUserByEmailOrUsername db eu = none →
        loginHandler db eu pw now = msgResp 401 "Credenciais inválidas") ∧
      (∀ u, getUserByEmailOrUsername db eu = some u →
        comparePassword pw u.password = false →
        loginHandler db eu pw now = msgResp 401 "Credenciais inválidas") ∧
      (∀ u, getUserByEmailOrUsername db eu = some u →
        comparePassword pw u.password = true →
        loginHandler db eu pw now =
          ⟨200, .json (.obj [("user", publicUserJson u),
            ("token", .str (renderToken (generateToken u.id now)))])⟩) := by
  intro db eu pw now
  refine ⟨fun hnone => ?_, fun u hu hbad => ?_, fun u hu hok => ?_⟩
  · simp [loginHandler, hnone]
  · simp [loginHandler, hu, hbad]
  · simp [loginHandler, hu, hok]

/-- Witness for C7: unknown identifier and wrong password yield the same
response on the sample store; the correct pair succeeds. -/
theorem login_uniform_failure_witness :
    loginHandler [alice] "nobody" "whatever" 0 =
      msgResp 401 "Credenciais inválidas" ∧
    loginHandler [alice] "alice@example.com" "wrong-pw" 0 =
      msgResp 401 "Credenciais inválidas" ∧
    loginHandler [alice] "alice@example.com" "correct-horse" 0 =
      ⟨200, .json (.obj [("user", publicUserJson alice),
        ("token", .str (renderToken (generateToken alice.id 0)))])⟩ :=
  ⟨(login_uniform_failure [alice] "nobody" "whatever" 0).1 (by decide),
   (login_uniform_failure [alice] "alice@example.com" "wrong-pw" 0).2.1 alice
     (by decide) (by decide),
   (login_uniform_failure [alice] "alice@example.com" "correct-horse" 0).2.2
     alice (by decide) (by decide)⟩

/-- C8 as stated: a change-password request whose current password does
not verify against the stored hash answers 400 with the current-password
message and leaves the store untouched; when it verifies, the rows of the
caller get the hash of the new password and every other row is as it
was. -/
theorem change_password_requires_current :
    ∀ (db : Db) (uid cur newPw : String) (u : User),
      getUser db uid = some u →
      (comparePassword cur u.password = false →
        changePasswordHandler db uid cur newPw =
          (msgResp 400 "Senha atual incorreta", db)) ∧
      (comparePassword cur u.password = true →
        (changePasswordHandler db uid cur newPw).1 =
          msgResp 200 "Senha alterada com sucesso" ∧
        ∀ v ∈ (changePasswordHandler db uid cur newPw).2,
          (v.id = uid → v.password = hashPassword newPw) ∧
          (v.id ≠ uid → v ∈ db)) := by
  intro db uid cur newPw u hu
  refine ⟨fun hbad => ?_, fun hok => ⟨?_, fun v hv => ?_⟩⟩
  · simp [changePasswordHandler, hu, hbad]
  · simp [changePasswordHandler, hu, hok]
  · simp only [changePasswordHandler, hu, hok, if_pos, updateUserDb] at hv
    obtain ⟨w, hw, rfl⟩ := List.mem_map.1 hv
    by_cases hwid : w.id = uid
    · simp [hwid, applyUserUpdate]
    · simp [hwid, hw]

/-- Witness for C8: the wrong current password leaves the sample store
untouched; the right one replaces the stored hash. -/
theorem change_password_requires_current_witness :
    changePasswordHandler [alice] "u1" "wrong-pw" "next-pw" =
      (msgResp 400 "Senha atual incorreta", [alice]) ∧
    (changePasswordHandler [alice] "u1" "correct-horse" "next-pw").1 =
      msgResp 200 "Senha alterada com sucesso" :=
  ⟨(change_password_requires_current [alice] "u1" "wrong-pw" "next-pw" alice
      (by decide)).1 (by decide),
   ((change_password_requires_current [alice] "u1" "correct-horse" "next-pw"
      alice (by decide)).2 (by decide)).1⟩

/-- C10 as stated: the five handlers registered without the middleware
give the same answer whatever the authorization header holds, never answer
401 or 403 (their statuses are 200 and 204), apply their mutation to
whatever row carries the path id irrespective of its owner, and the export
returns the CSV of whichever user id appears in the path. -/
theorem ungated_endpoints_ignore_auth :
    ∀ (h₁ h₂ : Option String) (dbR : List Route) (dbT : List Trip)
      (id uid : String) (ru : RouteUpdate) (tu : TripUpdate)
      (f : TripFilters),
      putRouteHandler h₁ dbR id ru = putRouteHandler h₂ dbR id ru ∧
      deleteRouteHandler h₁ dbR id = deleteRouteHandler h₂ dbR id ∧
      putTripHandler h₁ dbT id tu = putTripHandler h₂ dbT id tu ∧
      deleteTripHandler h₁ dbT id = deleteTripHandler h₂ dbT id ∧
      exportTripsHandler h₁ dbT uid f = exportTripsHandler h₂ dbT uid f ∧
      (putRouteHandler h₁ dbR id ru).1.status = 200 ∧
      (deleteRouteHandler h₁ dbR id).1.status = 204 ∧
      (putTripHandler h₁ dbT id tu).1.status = 200 ∧
      (deleteTripHandler h₁ dbT id).1.status = 204 ∧
      (exportTripsHandler h₁ dbT uid f).status = 200 ∧
      (putRouteHandler h₁ dbR id ru).2 = updateRouteDb dbR id ru ∧
      (deleteRouteHandler h₁ dbR id).2 = deleteRouteDb dbR id ∧
      (putTripHandler h₁ dbT id tu).2 = updateTripDb dbT id tu ∧
      (deleteTripHandler h₁ dbT id).2 = deleteTripDb dbT id ∧
      exportTripsHandler h₁ dbT uid f =
        ⟨200, .text (buildCsv (getTrips dbT uid f))⟩ ∧
      (∀ r ∈ dbR, r.id = id →
        applyRouteUpdate r ru ∈ (putRouteHandler h₁ dbR id ru).2) ∧
      (∀ t ∈ dbT, t.id = id → t ∉ (deleteTripHandler h₁ dbT id).2) := by
  intro h₁ h₂ dbR dbT id uid ru tu f
  refine ⟨rfl, rfl, rfl, rfl, rfl, ?_, rfl, ?_, rfl, rfl, rfl, rfl, rfl, rfl,
    rfl, fun r hr hid => ?_, fun t ht hid hin => ?_⟩
  · cases hret : updateRouteRet dbR id ru <;>
      simp [putRouteHandler, hret]
  · cases hret : updateTripRet dbT id tu <;>
      simp [putTripHandler, hret]
  · have : applyRouteUpdate r ru ∈ updateRouteDb dbR id ru := by
      simp only [updateRouteDb]
      exact List.mem_map.2 ⟨r, hr, by simp [hid]⟩
    simpa [putRouteHandler] using this
  · simp only [deleteTripHandler, deleteTripDb, List.mem_filter] at hin
    exact absurd hin.2 (by simp [hid])

/-- The sample route update of the C10 witness. -/
def routeUpd0 : RouteUpdate := { kilometers := some 99 }

/-- Witness for C10: the stored route of one user is updated through a
request with no header, and the stored trip of one user is deleted through
a request carrying the header of another user. -/
theorem ungated_endpoints_ignore_auth_witness :
    (putRouteHandler none [route0] "r1" routeUpd0).1.status = 200 ∧
    applyRouteUpdate route0 routeUpd0 ∈
      (putRouteHandler none [route0] "r1" routeUpd0).2 ∧
    trip0 ∉
      (deleteTripHandler (some "Bearer of-another-user") [trip0] "t1").2 :=
  ⟨(ungated_endpoints_ignore_auth none none [route0] [] "r1" "x" routeUpd0
      {} {}).2.2.2.2.2.1,
   (ungated_endpoints_ignore_auth none none [route0] [] "r1" "x" routeUpd0
      {} {}).2.2.2.2.2.2.2.2.2.2.2.2.2.2.2.1 route0 (by decide) rfl,
   (ungated_endpoints_ignore_auth (some "Bearer of-another-user") none []
      [trip0] "t1" "x" routeUpd0 {} {}).2.2.2.2.2.2.2.2.2.2.2.2.2.2.2.2
      trip0 (by decide) rfl⟩

/-! ### C4: sensitive fields in response payloads -/

/-- Whether a JSON response body contains a given object key anywhere. -/
def respHasKey (r : Resp) (k : String) : Bool :=
  match r.body with
  | .json j => j.hasKey k
  | _ => false

/-- A string leaf holds no keys at any fuel. -/
theorem hasKeyFuel_str (n : Nat) (s k : String) :
    Json.hasKeyFuel n (.str s) k = false := by
  cases n <;> simp [Json.hasKeyFuel]

/-- An optional-string leaf holds no keys at any fuel. -/
theorem hasKeyFuel_optStr (n : Nat) (x : Option String) (k : String) :
    Json.hasKeyFuel n (jsonOptStr x) k = false := by
  cases x <;> cases n <;> simp [jsonOptStr, Json.hasKeyFuel]

/-- An optional-boolean leaf holds no keys at any fuel. -/
theorem hasKeyFuel_optBool (n : Nat) (x : Option Bool) (k : String) :
    Json.hasKeyFuel n (jsonOptBool x) k = false := by
  cases x <;> cases n <;> simp [jsonOptBool, Json.hasKeyFuel]

/-- An optional-number leaf holds no keys at any fuel. -/
theorem hasKeyFuel_optNat (n : Nat) (x : Option Nat) (k : String) :
    Json.hasKeyFuel n (jsonOptNat x) k = false := by
  cases x <;> cases n <;> simp [jsonOptNat, Json.hasKeyFuel]

/-- The stripped user payload carries none of the three sensitive keys. -/
theorem publicUserJson_no_sensitive (n : Nat) (u : User) (k : String)
    (hk : k = "password" ∨ k = "resetToken" ∨ k = "resetTokenExpiry") :
    Json.hasKeyFuel n (publicUserJson u) k = false := by
  rcases hk with rfl | rfl | rfl <;> cases n <;>
    simp [publicUserJson, Json.hasKeyFuel, hasKeyFuel_str, hasKeyFuel_optStr,
      hasKeyFuel_optBool, hasKeyFuel_optNat]

/-- A message-only body carries none of the three sensitive keys. -/
theorem respHasKey_msgResp (st : Nat) (m k : String)
    (hk : k = "password" ∨ k = "resetToken" ∨ k = "resetTokenExpiry") :
    respHasKey (msgResp st m) k = false := by
  rcases hk with rfl | rfl | rfl <;>
    simp [respHasKey, msgResp, Json.hasKey, Json.hasKeyFuel, hasKeyFuel_str]

/-- A response whose body is the stripped user carries none of the three
sensitive keys. -/
theorem respHasKey_publicUser (st : Nat) (u : User) (k : String)
    (hk : k = "password" ∨ k = "resetToken" ∨ k = "resetTokenExpiry") :
    respHasKey ⟨st, .json (publicUserJson u)⟩ k = false := by
  simp [respHasKey, Json.hasKey, publicUserJson_no_sensitive _ _ _ hk]

/-- A response whose body pairs the stripped user with a token carries
none of the three sensitive keys. -/
theorem respHasKey_userToken (st : Nat) (u : User) (t k : String)
    (hk : k = "password" ∨ k = "resetToken" ∨ k = "resetTokenExpiry") :
    respHasKey ⟨st, .json (.obj [("user", publicUserJson u),
      ("token", .str t)])⟩ k = false := by
  have hu := publicUserJson_no_sensitive 2 u k hk
  rcases hk with rfl | rfl | rfl <;>
    simp [respHasKey, Json.hasKey, Json.hasKeyFuel, hasKeyFuel_str,
      hasKeyFuel_optStr, hasKeyFuel_optBool, hasKeyFuel_optNat, hu]

/-- Counterexample to C4 as stated: in the active module the legacy
POST /api/users handler answers with the full row, so its response body
carries the password, resetToken and resetTokenExpiry keys — and the
stored plaintext password value itself. -/
theorem post_users_response_leaks_password :
    respHasKey (postUsersHandler [] sampleInsert "u9" 0).1 "password" = true ∧
    respHasKey (postUsersHandler [] sampleInsert "u9" 0).1 "resetToken" = true ∧
    respHasKey (postUsersHandler [] sampleInsert "u9" 0).1 "resetTokenExpiry" =
      true := by
  refine ⟨?_, ?_, ?_⟩ <;> rfl

/-- C4 amended: of the handlers of the active module whose payload
includes a user record, all except the legacy POST /api/users and
PUT /api/users/:id exclude the password, resetToken and resetTokenExpiry
keys from every response, on every input. -/
theorem user_payload_handlers_strip_sensitive :
    ∀ (db : Db) (i : InsertUserInput) (freshId : String) (now : Nat)
      (eu pw uid pid cur npw : String) (p : ProfileUpdate) (k : String),
      k = "password" ∨ k = "resetToken" ∨ k = "resetTokenExpiry" →
      respHasKey (registerHandler db i freshId now).1 k = false ∧
      respHasKey (loginHandler db eu pw now) k = false ∧
      respHasKey (authMeHandler db uid) k = false ∧
      respHasKey (updateProfileHandler db uid p).1 k = false ∧
      respHasKey (changePasswordHandler db uid cur npw).1 k = false ∧
      respHasKey (getUserByIdHandler db pid uid) k = false := by
  intro db i freshId now eu pw uid pid cur npw p k hk
  refine ⟨?_, ?_, ?_, ?_, ?_, ?_⟩
  · cases h₁ : getUserByEmail db i.email with
    | some _ => simp [registerHandler, h₁, respHasKey_msgResp _ _ _ hk]
    | none =>
        cases h₂ : getUserByUsername db i.username with
        | some _ => simp [registerHandler, h₁, h₂, respHasKey_msgResp _ _ _ hk]
        | none =>
            simp only [registerHandler, h₁, h₂, createUser]
            exact respHasKey_userToken _ _ _ _ hk
  · cases h₁ : getUserByEmailOrUsername db eu with
    | none => simp [loginHandler, h₁, respHasKey_msgResp _ _ _ hk]
    | some u =>
        by_cases h₂ : comparePassword pw u.password
        · simp only [loginHandler, h₁, h₂, if_pos]
          exact respHasKey_userToken _ _ _ _ hk
        · simp [loginHandler, h₁, h₂, respHasKey_msgResp _ _ _ hk]
  · cases h₁ : getUser db uid with
    | none => simp [authMeHandler, h₁, respHasKey_msgResp _ _ _ hk]
    | some u =>
        simp only [authMeHandler, h₁]
        exact respHasKey_publicUser _ _ _ hk
  · simp only [updateProfileHandler]
    split
    · exact respHasKey_msgResp _ _ _ hk
    · split
      · exact respHasKey_msgResp _ _ _ hk
      · split
        · exact respHasKey_msgResp _ _ _ hk
        · exact respHasKey_publicUser _ _ _ hk
  · cases h₁ : getUser db uid with
    | none => simp [changePasswordHandler, h₁, respHasKey_msgResp _ _ _ hk]
    | some u =>
        by_cases h₂ : comparePassword cur u.password <;>
          simp [changePasswordHandler, h₁, h₂, respHasKey_msgResp _ _ _ hk]
  · by_cases h₁ : pid != uid
    · simp [getUserByIdHandler, h₁, respHasKey_msgResp _ _ _ hk]
    · cases h₂ : getUser db pid with
      | none => simp [getUserByIdHandler, h₁, h₂, respHasKey_msgResp _ _ _ hk]
      | some u =>
          simp only [getUserByIdHandler, h₁, h₂, Bool.false_eq_true,
            if_false]
          exact respHasKey_publicUser _ _ _ hk

/-- Witness for the amended C4 at concrete inputs. -/
theorem user_payload_handlers_strip_sensitive_witness :
    respHasKey (registerHandler [] sampleInsert "u9" 0).1 "password" = false ∧
    respHasKey (loginHandler [alice] "alice" "correct-horse" 0) "resetToken" =
      false ∧
    respHasKey (authMeHandler [alice] "u1") "resetTokenExpiry" = false :=
  ⟨(user_payload_handlers_strip_sensitive [] sampleInsert "u9" 0 "x" "x" "x"
      "x" "x" "x" {} "password" (Or.inl rfl)).1,
   (user_payload_handlers_strip_sensitive [alice] sampleInsert "u9" 0 "alice"
      "correct-horse" "x" "x" "x" "x" {} "resetToken"
      (Or.inr (Or.inl rfl))).2.1,
   (user_payload_handlers_strip_sensitive [alice] sampleInsert "u9" 0 "x" "x"
      "u1" "x" "x" "x" {} "resetTokenExpiry"
      (Or.inr (Or.inr rfl))).2.2.1⟩

end TravelControl
